import Mathlib

/-!
Shallow embedding of the kyomi repository's OAuth2 module (src/spotify.rs)
and its loopback-redirect orchestration (src/main.rs), with theorems checking
the natural-language specification against the code.

Conventions of the embedding:
* Rust strings are Lean `String`s; byte buffers are `List Nat` (each < 256).
* The local filesystem is reduced to the one file the code touches, the
  fixed-name file "token": `FS.tokenFile = none` models "the file does not
  exist", `some s` models "the file exists with contents s".
* Network effects are made explicit: functions return, besides their result,
  the list of HTTP requests they issued; responses come from an oracle
  parameter so every transport / decode outcome can be analysed.
* A Rust `panic!` / `.unwrap()` on `None` is modelled by an explicit
  `panicked` constructor of the result type.
-/

/-- UTF-8 bytes of a single character (the standard encoding, as Rust's
`String::into_bytes` produces). -/
def utf8Bytes (c : Char) : List Nat :=
  let n := c.toNat
  if n < 0x80 then [n]
  else if n < 0x800 then [0xC0 + n / 64, 0x80 + n % 64]
  else if n < 0x10000 then [0xE0 + n / 4096, 0x80 + (n / 64) % 64, 0x80 + n % 64]
  else [0xF0 + n / 262144, 0x80 + (n / 4096) % 64, 0x80 + (n / 64) % 64, 0x80 + n % 64]

/-- The UTF-8 bytes of a string (Rust `str::as_bytes` / `String::into_bytes`). -/
def strBytes (s : String) : List Nat :=
  (s.data.map utf8Bytes).flatten

/-- Uppercase hexadecimal digit, for percent escapes. -/
def hexUpper (n : Nat) : Char :=
  "0123456789ABCDEF".data.getD n '0'

/-- Bytes the urlencoding crate leaves unescaped: ASCII alphanumerics and
the marks from RFC 3986 unreserved set. -/
def isUrlUnreserved (b : Nat) : Bool :=
  (0x41 ≤ b && b ≤ 0x5A) || (0x61 ≤ b && b ≤ 0x7A) ||
  (0x30 ≤ b && b ≤ 0x39) || b == 0x2D || b == 0x2E || b == 0x5F || b == 0x7E

/-- Percent-encoding of one byte, urlencoding-crate style. -/
def pctEncodeByte (b : Nat) : List Char :=
  if isUrlUnreserved b then [Char.ofNat b]
  else ['%', hexUpper (b / 16), hexUpper (b % 16)]

/-- Model of urlencoding::encode: percent-encodes every UTF-8 byte of the
input except unreserved ones. -/
def urlencoding_encode (s : String) : String :=
  String.mk ((strBytes s).map pctEncodeByte).flatten

/-- The base64 standard alphabet (base64::engine::general_purpose::STANDARD). -/
def base64Alphabet : List Char :=
  "ABCDEFGHIJKLMNOPQRSTUVWXYZabcdefghijklmnopqrstuvwxyz0123456789+/".data

/-- One character of base64 output. -/
def b64Char (n : Nat) : Char := base64Alphabet.getD n 'A'

/-- Standard base64 with padding over a byte list, as
base64::engine::general_purpose::STANDARD.encode produces. -/
def base64_encode : List Nat → List Char
  | b0 :: b1 :: b2 :: rest =>
    let n := b0 * 65536 + b1 * 256 + b2
    b64Char (n / 262144) :: b64Char ((n / 4096) % 64) :: b64Char ((n / 64) % 64) ::
      b64Char (n % 64) :: base64_encode rest
  | [b0, b1] =>
    let n := b0 * 65536 + b1 * 256
    [b64Char (n / 262144), b64Char ((n / 4096) % 64), b64Char ((n / 64) % 64), '=']
  | [b0] =>
    let n := b0 * 65536
    [b64Char (n / 262144), b64Char ((n / 4096) % 64), '=', '=']
  | [] => []

/-- base64 of a string's UTF-8 bytes, as the token-exchange code uses it. -/
def base64_encode_str (s : String) : String :=
  String.mk (base64_encode (strBytes s))

/-- Rust's bool::to_string. -/
def boolToString (b : Bool) : String :=
  if b then "true" else "false"

/-- The response_type enum of src/spotify.rs (always Code in practice). -/
inductive ResponseType
  | Code
  | Token
deriving DecidableEq, Repr

/-- The Spotify client configuration struct of src/spotify.rs.  The field
named token in the source is called token_field here because the source
also has a method of that name. -/
structure Spotify where
  client_id : String
  response_type : ResponseType
  redirect_uri : String
  state : Option String
  scope : Option String
  show_dialog : Bool
  token_field : Option String
deriving DecidableEq, Repr

/-- Spotify::from_client_id: all other fields take their defaults. -/
def Spotify.from_client_id (client_id : String) : Spotify :=
  { client_id := client_id
    response_type := ResponseType.Code
    redirect_uri := ""
    state := none
    scope := none
    show_dialog := false
    token_field := none }

/-- Spotify::with_state builder. -/
def Spotify.with_state (sp : Spotify) (s : String) : Spotify :=
  { sp with state := some s }

/-- Spotify::with_scope builder. -/
def Spotify.with_scope (sp : Spotify) (s : String) : Spotify :=
  { sp with scope := some s }

/-- Spotify::with_redirect_uri builder. -/
def Spotify.with_redirect_uri (sp : Spotify) (s : String) : Spotify :=
  { sp with redirect_uri := s }

/-- Spotify::auth_url of src/spotify.rs lines 71-82: base url plus the
format-built query string, each value run through urlencoding::encode,
optionals defaulted to the empty string. -/
def Spotify.auth_url (sp : Spotify) : String :=
  let base := "https://accounts.spotify.com/authorize"
  let params :=
    "?client_id=" ++ urlencoding_encode sp.client_id ++
    "&response_type=code&redirect_uri=" ++ urlencoding_encode sp.redirect_uri ++
    "&state=" ++ urlencoding_encode (sp.state.getD "") ++
    "&scope=" ++ urlencoding_encode (sp.scope.getD "") ++
    "&show_dialog=" ++ urlencoding_encode (boolToString sp.show_dialog)
  base ++ params

/-- The one file the token store touches, the fixed-name file "token".
none: the file does not exist; some s: it exists with contents s. -/
structure FS where
  tokenFile : Option String
deriving DecidableEq, Repr

/-- An HTTP POST request as the token exchange builds it: url, header list
in insertion order, and raw body. -/
structure HttpPost where
  url : String
  headers : List (String × String)
  body : String
deriving DecidableEq, Repr

/-- The TokenResponse wire struct of src/spotify.rs lines 5-12. -/
structure TokenResponse where
  access_token : String
  token_type : String
  expires_in : Int
  refresh_token : String
  scope : String
deriving DecidableEq, Repr

/-- write_token_to_disk of src/spotify.rs lines 177-180: File::create
truncates or creates the "token" file, then the token bytes are written. -/
def write_token_to_disk (token : String) (fs : FS) : FS :=
  { fs with tokenFile := some token }

/-- Spotify::token_from_disk of src/spotify.rs lines 84-97: open the
"token" file; on success read it all, cache it in the token field and
return it; on open failure create an empty file and return the
recoverable error "no token saved". -/
def Spotify.token_from_disk (sp : Spotify) (fs : FS) :
    Except String String × Spotify × FS :=
  match fs.tokenFile with
  | some contents => (Except.ok contents, { sp with token_field := some contents }, fs)
  | none => (Except.error "no token saved", sp, { fs with tokenFile := some "" })

/-- The POST request built by Spotify::token (src/spotify.rs lines
105-127) on the exchange path.  CLIENT_ID, CLIENT_SECRET and AUTH_CODE are
module constants kept outside the repository (a secrets file not in src),
so they are parameters here. -/
def tokenRequest (CLIENT_ID CLIENT_SECRET AUTH_CODE redirect_uri : String) : HttpPost :=
  { url := "https://accounts.spotify.com/api/token"
    headers :=
      [("Content-Type", "application/x-www-form-urlencoded"),
       ("Authorization", "Basic " ++ base64_encode_str (CLIENT_ID ++ ":" ++ CLIENT_SECRET))]
    body := "grant_type=authorization_code&code=" ++ AUTH_CODE ++
      "&redirect_uri=" ++ redirect_uri }

/-- Outcome of one HTTP exchange as the code observes it: outer error is a
transport failure of send(), inner error is a json() decode failure. -/
abbrev NetOracle := HttpPost → Except String (Except String TokenResponse)

/-- The exchange tail of Spotify::token (src/spotify.rs lines 105-148),
reached when no usable token came from disk.  Returns the result, the
updated client, the updated filesystem, and the requests issued. -/
def tokenExchange (CLIENT_ID CLIENT_SECRET AUTH_CODE : String) (sp : Spotify)
    (fs : FS) (net : NetOracle) :
    Except String String × Spotify × FS × List HttpPost :=
  let req := tokenRequest CLIENT_ID CLIENT_SECRET AUTH_CODE sp.redirect_uri
  match net req with
  | Except.error e => (Except.error ("Server Error: " ++ e), sp, fs, [req])
  | Except.ok (Except.error e) =>
      (Except.error ("json parsing error: " ++ e), sp, fs, [req])
  | Except.ok (Except.ok data) =>
      (Except.ok data.access_token, { sp with token_field := some data.access_token },
       write_token_to_disk data.access_token fs, [req])

/-- Spotify::token of src/spotify.rs lines 99-149 (named token_fn because
the struct field token already claims the name Spotify.token): try the
disk first; if that yielded a non-empty token return it at once, issuing
no request; otherwise run the exchange. -/
def Spotify.token_fn (CLIENT_ID CLIENT_SECRET AUTH_CODE : String) (sp : Spotify)
    (fs : FS) (net : NetOracle) :
    Except String String × Spotify × FS × List HttpPost :=
  match sp.token_from_disk fs with
  | (Except.ok t, sp1, fs1) =>
    if t.length > 0 then (Except.ok t, { sp1 with token_field := some t }, fs1, [])
    else tokenExchange CLIENT_ID CLIENT_SECRET AUTH_CODE sp1 fs1 net
  | (Except.error _, sp1, fs1) =>
    tokenExchange CLIENT_ID CLIENT_SECRET AUTH_CODE sp1 fs1 net

/-- Outcome of Spotify::get_currently_playing before any I/O happens:
either the process panics (token unwrap on None), or a GET request with
the given url and headers goes out. -/
inductive CurrentlyPlayingCall
  | panicked
  | requests (url : String) (headers : List (String × String))
deriving DecidableEq, Repr

/-- Spotify::get_currently_playing of src/spotify.rs lines 151-176, up to
the point the request is sent: self.token.clone().unwrap() panics when no
token is stored, otherwise the only header inserted is the Bearer
authorization (the Content-Type insertion is commented out in the source). -/
def Spotify.get_currently_playing (sp : Spotify) : CurrentlyPlayingCall :=
  match sp.token_field with
  | none => CurrentlyPlayingCall.panicked
  | some t =>
      CurrentlyPlayingCall.requests
        "https://api.spotify.com/v1/me/player/currently-playing"
        [("Authorization", "Bearer " ++ t)]

/-- Is a byte a UTF-8 continuation byte. -/
def isCont (b : Nat) : Bool := 0x80 ≤ b && b ≤ 0xBF

/-- The replacement character U+FFFD. -/
def replacementChar : Char := Char.ofNat 0xFFFD

/-- One step of Rust's String::from_utf8_lossy: given a non-empty byte
list, how many bytes the first decoded unit consumes (at least 1) and the
character it yields.  Valid sequences decode normally, with the usual
range restrictions on the byte after E0/ED/F0/F4 that exclude overlongs,
surrogates and values above U+10FFFF; anything invalid yields U+FFFD after
consuming the maximal valid prefix (at least the first byte), exactly as
Rust's lossy decoder resumes at the first offending byte. -/
def utf8Step : List Nat → Nat × Char
  | [] => (1, replacementChar)
  | b :: rest =>
    if b ≤ 0x7F then (1, Char.ofNat b)
    else if 0xC2 ≤ b && b ≤ 0xDF then
      match rest with
      | [] => (1, replacementChar)
      | b1 :: _ =>
        if isCont b1 then (2, Char.ofNat ((b - 0xC0) * 64 + (b1 - 0x80)))
        else (1, replacementChar)
    else if 0xE0 ≤ b && b ≤ 0xEF then
      match rest with
      | [] => (1, replacementChar)
      | b1 :: r1 =>
        if (b == 0xE0 && 0xA0 ≤ b1 && b1 ≤ 0xBF) ||
           (b == 0xED && 0x80 ≤ b1 && b1 ≤ 0x9F) ||
           (b ≠ 0xE0 && b ≠ 0xED && isCont b1) then
          match r1 with
          | [] => (2, replacementChar)
          | b2 :: _ =>
            if isCont b2 then
              (3, Char.ofNat ((b - 0xE0) * 4096 + (b1 - 0x80) * 64 + (b2 - 0x80)))
            else (2, replacementChar)
        else (1, replacementChar)
    else if 0xF0 ≤ b && b ≤ 0xF4 then
      match rest with
      | [] => (1, replacementChar)
      | b1 :: r1 =>
        if (b == 0xF0 && 0x90 ≤ b1 && b1 ≤ 0xBF) ||
           (b == 0xF4 && 0x80 ≤ b1 && b1 ≤ 0x8F) ||
           (b ≠ 0xF0 && b ≠ 0xF4 && isCont b1) then
          match r1 with
          | [] => (2, replacementChar)
          | b2 :: r2 =>
            if isCont b2 then
              match r2 with
              | [] => (3, replacementChar)
              | b3 :: _ =>
                if isCont b3 then
                  (4, Char.ofNat ((b - 0xF0) * 262144 + (b1 - 0x80) * 4096 +
                    (b2 - 0x80) * 64 + (b3 - 0x80)))
                else (3, replacementChar)
            else (2, replacementChar)
        else (1, replacementChar)
    else (1, replacementChar)

/-- Driver for the lossy decoder, with explicit fuel so the function
computes by structural recursion; every step consumes at least one byte,
so fuel equal to the list length never runs out. -/
def utf8LossyAux : Nat → List Nat → List Char
  | _, [] => []
  | 0, _ :: _ => []
  | Nat.succ fuel, b :: rest =>
    let s := utf8Step (b :: rest)
    s.2 :: utf8LossyAux fuel (List.drop (s.1 - 1) rest)

/-- Rust's String::from_utf8_lossy, decoding a byte list to characters by
repeated utf8Step. -/
def utf8Lossy (bs : List Nat) : List Char :=
  utf8LossyAux bs.length bs

/-- String::from_utf8_lossy(&buffer[..n]).to_string(). -/
def fromUtf8Lossy (bytes : List Nat) : String :=
  String.mk (utf8Lossy bytes)

/-- Result of running the per-connection handler closure: the value of the
shared captured-payload slot afterwards, and the byte strings written back
to the socket. -/
structure HandlerResult where
  slot : String
  socketWrites : List String
deriving DecidableEq, Repr

/-- The per-connection handler spawned in src/main.rs lines 517-535, given
the bytes the single read returned (the buffer is 512 bytes, so at most
512 of them) and the current contents of the shared slot: a non-empty read
overwrites the slot with the lossy text of exactly the bytes read and
acknowledges with one fixed line; an empty read leaves the slot alone and
acknowledges with a different fixed line. -/
def handle_connection (bytes : List Nat) (slot : String) : HandlerResult :=
  if bytes.length ≠ 0 then
    { slot := fromUtf8Lossy bytes
      socketWrites := ["hello from tokio server\n"] }
  else
    { slot := slot
      socketWrites := ["hello anyway!\n"] }

/-- The observable scheduling events of the OAuth loopback flow in
src/main.rs lines 510-551: the outer spawned listener task accepts one
connection, spawns the per-connection handler task and terminates; the
handler task writes the shared slot; the main flow awaits the listener
task and then reads the slot. -/
inductive LoopbackEvent
  | accept
  | spawnHandler
  | listenerDone
  | handlerWrite
  | joinListener
  | readSlot
deriving DecidableEq, Repr

/-- All six loopback events. -/
def allLoopbackEvents : List LoopbackEvent :=
  [LoopbackEvent.accept, LoopbackEvent.spawnHandler, LoopbackEvent.listenerDone,
   LoopbackEvent.handlerWrite, LoopbackEvent.joinListener, LoopbackEvent.readSlot]

/-- a is scheduled strictly before b in the trace. -/
def happensBefore (tr : List LoopbackEvent) (a b : LoopbackEvent) : Bool :=
  tr.indexOf a < tr.indexOf b

/-- The schedules the async runtime may produce for src/main.rs: every
event occurs (each once, the trace has length six), program order holds
inside the listener task (accept, then spawn, then return), the handler
runs only after being spawned, and task.await in main returns only after
the listener task terminated, before main reads the slot.  The handler
task itself is detached by tokio::spawn and never joined, which is why no
clause constrains handlerWrite against joinListener or readSlot. -/
def admissibleSchedule (tr : List LoopbackEvent) : Bool :=
  tr.length == 6 &&
  allLoopbackEvents.all (fun e => tr.contains e) &&
  happensBefore tr LoopbackEvent.accept LoopbackEvent.spawnHandler &&
  happensBefore tr LoopbackEvent.spawnHandler LoopbackEvent.listenerDone &&
  happensBefore tr LoopbackEvent.spawnHandler LoopbackEvent.handlerWrite &&
  happensBefore tr LoopbackEvent.listenerDone LoopbackEvent.joinListener &&
  happensBefore tr LoopbackEvent.joinListener LoopbackEvent.readSlot

/-- What main reads from the shared slot under a given schedule: the
handler's payload if its write was scheduled before the read, otherwise
the initial contents String::with_capacity(512), the empty string. -/
def slotAtRead (tr : List LoopbackEvent) (payload : String) : String :=
  if happensBefore tr LoopbackEvent.handlerWrite LoopbackEvent.readSlot then payload
  else ""

/-- A schedule the runtime may produce in which the detached handler task
runs only after main has already joined the listener task and read the
slot. -/
def raceSchedule : List LoopbackEvent :=
  [LoopbackEvent.accept, LoopbackEvent.spawnHandler, LoopbackEvent.listenerDone,
   LoopbackEvent.joinListener, LoopbackEvent.readSlot, LoopbackEvent.handlerWrite]

/-- String concatenation is associative (helper shared by the url and
request-body theorems). -/
theorem string_append_assoc (a b c : String) : a ++ b ++ c = a ++ (b ++ c) := by
  apply String.ext
  simp [String.data_append, List.append_assoc]

/-- Claim C1: for every client configuration, auth_url returns exactly the
authorize url with the six query parameters client_id, response_type,
redirect_uri, state, scope, show_dialog in that order, each value
percent-encoded independently; unset state or scope encode to the empty
string and show_dialog encodes the literal "true" or "false"; the
construction is pure, with no failure path. -/
theorem auth_url_spec (sp : Spotify) :
    sp.auth_url =
      "https://accounts.spotify.com/authorize?client_id=" ++
        urlencoding_encode sp.client_id ++
      "&response_type=code&redirect_uri=" ++ urlencoding_encode sp.redirect_uri ++
      "&state=" ++ urlencoding_encode (sp.state.getD "") ++
      "&scope=" ++ urlencoding_encode (sp.scope.getD "") ++
      "&show_dialog=" ++ urlencoding_encode (boolToString sp.show_dialog) ∧
    (sp.state = none → urlencoding_encode (sp.state.getD "") = "") ∧
    (sp.scope = none → urlencoding_encode (sp.scope.getD "") = "") ∧
    urlencoding_encode (boolToString sp.show_dialog) =
      (if sp.show_dialog then "true" else "false") := by
  refine ⟨?_, ?_, ?_, ?_⟩
  · simp only [Spotify.auth_url, string_append_assoc]
    rw [← string_append_assoc "https://accounts.spotify.com/authorize" "?client_id="]
    have hlit : ("https://accounts.spotify.com/authorize" ++ "?client_id=" : String) =
        "https://accounts.spotify.com/authorize?client_id=" := rfl
    rw [hlit]
  · intro h; rw [h]; rfl
  · intro h; rw [h]; rfl
  · cases h : sp.show_dialog <;> rfl

/-- Witness for C1 at a concrete configuration: only percent-reserved
bytes of the redirect uri change, state and scope are empty, show_dialog
renders false. -/
theorem auth_url_spec_witness :
    (Spotify.mk "abc" ResponseType.Code "http://localhost:8000" none none false
        none).auth_url =
      "https://accounts.spotify.com/authorize?client_id=abc&response_type=code&redirect_uri=http%3A%2F%2Flocalhost%3A8000&state=&scope=&show_dialog=false" := by
  rw [(auth_url_spec (Spotify.mk "abc" ResponseType.Code "http://localhost:8000"
    none none false none)).1]
  decide

/-- Claim C2: when the token file holds a non-empty string, token()
returns exactly that string, caches it in memory, and issues no network
request at all: the returned request trace is empty, whatever the network
oracle would have answered. -/
theorem token_fast_path (ci cs code : String) (sp : Spotify) (net : NetOracle)
    (s : String) (h : 0 < s.length) :
    Spotify.token_fn ci cs code sp ⟨some s⟩ net =
      (Except.ok s, { sp with token_field := some s }, ⟨some s⟩, []) := by
  simp [Spotify.token_fn, Spotify.token_from_disk, h]

/-- Witness for C2: a disk file holding "tok" is returned as is, with an
empty request trace, for an oracle that would fail any request. -/
theorem token_fast_path_witness :
    0 < ("tok" : String).length ∧
    Spotify.token_fn "i" "s" "c"
        (Spotify.mk "i" ResponseType.Code "r" none none false none)
        ⟨some "tok"⟩ (fun _ => Except.error "offline") =
      (Except.ok "tok",
       Spotify.mk "i" ResponseType.Code "r" none none false (some "tok"),
       ⟨some "tok"⟩, []) :=
  ⟨by decide,
   token_fast_path "i" "s" "c"
     (Spotify.mk "i" ResponseType.Code "r" none none false none)
     (fun _ => Except.error "offline") "tok" (by decide)⟩

/-- The exchange tail always issues exactly one request, the token POST,
whatever the oracle answers (helper shared by the exchange theorems). -/
theorem tokenExchange_trace (ci cs code : String) (sp : Spotify) (fs : FS)
    (net : NetOracle) :
    (tokenExchange ci cs code sp fs net).2.2.2 =
      [tokenRequest ci cs code sp.redirect_uri] := by
  simp only [tokenExchange]
  cases hn : net (tokenRequest ci cs code sp.redirect_uri) with
  | error e => rfl
  | ok r => cases r <;> rfl

/-- Claim C3: on a cache miss (token file absent or empty) the exchange
issues exactly one POST to the token endpoint, with the Basic
authorization built from base64 of client_id:client_secret, the
form-urlencoded content type, and the grant_type body carrying the
authorization code and the configured redirect uri — whatever the
transport or decode outcome. -/
theorem token_exchange_request_spec (ci cs code : String) (sp : Spotify) (fs : FS)
    (net : NetOracle) (h : fs.tokenFile = none ∨ fs.tokenFile = some "") :
    (Spotify.token_fn ci cs code sp fs net).2.2.2 =
      [{ url := "https://accounts.spotify.com/api/token"
         headers :=
           [("Content-Type", "application/x-www-form-urlencoded"),
            ("Authorization", "Basic " ++ base64_encode_str (ci ++ ":" ++ cs))]
         body := "grant_type=authorization_code&code=" ++ code ++
           "&redirect_uri=" ++ sp.redirect_uri }] := by
  rcases h with h | h
  · simp only [Spotify.token_fn, Spotify.token_from_disk, h, tokenExchange_trace]
    rfl
  · simp only [Spotify.token_fn, Spotify.token_from_disk, h]
    rw [if_neg (by decide)]
    rw [tokenExchange_trace]
    rfl

/-- Witness for C3: with an absent token file, concrete credentials and a
failing transport, exactly the one documented POST goes out, its
authorization header computed on the base64 of "id:secret". -/
theorem token_exchange_request_spec_witness :
    ((⟨none⟩ : FS).tokenFile = none ∨ (⟨none⟩ : FS).tokenFile = some "") ∧
    (Spotify.token_fn "id" "secret" "thecode"
        (Spotify.mk "id" ResponseType.Code "http://localhost:8000" none none
          false none)
        ⟨none⟩ (fun _ => Except.error "offline")).2.2.2 =
      [{ url := "https://accounts.spotify.com/api/token"
         headers :=
           [("Content-Type", "application/x-www-form-urlencoded"),
            ("Authorization", "Basic aWQ6c2VjcmV0")]
         body := "grant_type=authorization_code&code=thecode&redirect_uri=http://localhost:8000" }] := by
  refine ⟨Or.inl rfl, ?_⟩
  rw [token_exchange_request_spec "id" "secret" "thecode"
    (Spotify.mk "id" ResponseType.Code "http://localhost:8000" none none false none)
    ⟨none⟩ (fun _ => Except.error "offline") (Or.inl rfl)]
  decide

/-- Claim C4: on a cache miss, when the exchange response decodes to a
TokenResponse whose access_token is "abc123", token() returns "abc123",
caches "abc123" in the in-memory token field and persists exactly
"abc123" to the token file, for arbitrary values of the other decoded
fields (token_type, expires_in, refresh_token, scope are parsed but not
retained anywhere in the resulting state). -/
theorem token_exchange_success (ci cs code tt rt sc : String) (ei : Int)
    (sp : Spotify) (fs : FS) (net : NetOracle)
    (hmiss : fs.tokenFile = none ∨ fs.tokenFile = some "")
    (hnet : net (tokenRequest ci cs code sp.redirect_uri) =
      Except.ok (Except.ok (TokenResponse.mk "abc123" tt ei rt sc))) :
    (Spotify.token_fn ci cs code sp fs net).1 = Except.ok "abc123" ∧
    (Spotify.token_fn ci cs code sp fs net).2.1.token_field = some "abc123" ∧
    (Spotify.token_fn ci cs code sp fs net).2.2.1.tokenFile = some "abc123" := by
  rcases hmiss with h | h
  · simp [Spotify.token_fn, Spotify.token_from_disk, h, tokenExchange, hnet,
      write_token_to_disk]
  · simp only [Spotify.token_fn, Spotify.token_from_disk, h]
    rw [if_neg (by decide)]
    simp [tokenExchange, hnet, write_token_to_disk]

/-- Witness for C4: concrete miss and a decode success fixture. -/
theorem token_exchange_success_witness :
    ((⟨none⟩ : FS).tokenFile = none ∨ (⟨none⟩ : FS).tokenFile = some "") ∧
    ((Spotify.token_fn "id" "secret" "thecode"
        (Spotify.mk "id" ResponseType.Code "r" none none false none) ⟨none⟩
        (fun _ => Except.ok (Except.ok
          (TokenResponse.mk "abc123" "Bearer" 3600 "refresh" "sc")))).1 =
      Except.ok "abc123" ∧
     (Spotify.token_fn "id" "secret" "thecode"
        (Spotify.mk "id" ResponseType.Code "r" none none false none) ⟨none⟩
        (fun _ => Except.ok (Except.ok
          (TokenResponse.mk "abc123" "Bearer" 3600 "refresh" "sc")))).2.1.token_field =
      some "abc123" ∧
     (Spotify.token_fn "id" "secret" "thecode"
        (Spotify.mk "id" ResponseType.Code "r" none none false none) ⟨none⟩
        (fun _ => Except.ok (Except.ok
          (TokenResponse.mk "abc123" "Bearer" 3600 "refresh" "sc")))).2.2.1.tokenFile =
      some "abc123") :=
  ⟨Or.inl rfl,
   token_exchange_success "id" "secret" "thecode" "Bearer" "refresh" "sc" 3600
     (Spotify.mk "id" ResponseType.Code "r" none none false none) ⟨none⟩
     (fun _ => Except.ok (Except.ok
       (TokenResponse.mk "abc123" "Bearer" 3600 "refresh" "sc")))
     (Or.inl rfl) rfl⟩

/-- Claim C5: when the token file does not exist, token_from_disk creates
it empty and returns the recoverable error "no token saved" (an Except
value, not a panic), and the caller falls through to the exchange flow:
token() then issues the token POST. -/
theorem token_from_disk_missing (sp : Spotify) (ci cs code : String)
    (net : NetOracle) :
    sp.token_from_disk ⟨none⟩ =
      (Except.error "no token saved", sp, ⟨some ""⟩) ∧
    (Spotify.token_fn ci cs code sp ⟨none⟩ net).2.2.2 =
      [tokenRequest ci cs code sp.redirect_uri] := by
  refine ⟨rfl, ?_⟩
  simp only [Spotify.token_fn, Spotify.token_from_disk, tokenExchange_trace]

/-- Claim C6: persisting any token and then loading from disk returns the
identical string (write_token_to_disk / token_from_disk round-trip). -/
theorem token_roundtrip (sp : Spotify) (t : String) (fs : FS) :
    (sp.token_from_disk (write_token_to_disk t fs)).1 = Except.ok t := by
  simp [Spotify.token_from_disk, write_token_to_disk]

/-- Claim C7: for one inbound connection delivering N bytes, 0 < N ≤ 512,
the handler stores exactly those bytes as text (the lossy UTF-8 reading of
precisely the N bytes read) in the shared slot and acknowledges with the
fixed line "hello from tokio server"; a zero-byte read leaves the slot
untouched and acknowledges with the different fixed line "hello anyway!". -/
theorem handle_connection_spec (bytes : List Nat) (slot : String)
    (hcap : bytes.length ≤ 512) :
    (0 < bytes.length →
      handle_connection bytes slot =
        { slot := fromUtf8Lossy bytes
          socketWrites := ["hello from tokio server\n"] }) ∧
    (bytes.length = 0 →
      handle_connection bytes slot =
        { slot := slot, socketWrites := ["hello anyway!\n"] }) := by
  constructor
  · intro hn
    simp [handle_connection, Nat.pos_iff_ne_zero.mp hn]
  · intro hn
    simp [handle_connection, hn]

/-- Witness for C7: a three-byte payload "abc" lands in the slot verbatim
and an empty read leaves the prior slot contents "old" alone. -/
theorem handle_connection_spec_witness :
    ([0x61, 0x62, 0x63] : List Nat).length ≤ 512 ∧
    handle_connection [0x61, 0x62, 0x63] "old" =
      { slot := "abc", socketWrites := ["hello from tokio server\n"] } ∧
    handle_connection [] "old" =
      { slot := "old", socketWrites := ["hello anyway!\n"] } :=
  ⟨by decide,
   by rw [(handle_connection_spec [0x61, 0x62, 0x63] "old" (by decide)).1
       (by decide)]
      decide,
   (handle_connection_spec [] "old" (by decide)).2 rfl⟩

/-- Claim C8 FAILS on the code: main awaits only the outer listener task,
while the slot is written by the inner per-connection task, which
tokio::spawn detaches and nothing ever joins.  The schedule below obeys
every ordering the code does enforce (listener program order, spawn before
handler, join of the listener before the read), yet the handler write
lands after the read, which then sees the initial empty slot instead of
the payload. -/
theorem loopback_join_race :
    admissibleSchedule raceSchedule = true ∧
    happensBefore raceSchedule LoopbackEvent.handlerWrite LoopbackEvent.readSlot
      = false ∧
    slotAtRead raceSchedule "code-payload" = "" := by decide

/-- Claim C9: get_currently_playing with a stored token issues the GET to
the currently-playing endpoint whose only header is the Bearer
authorization; with no token stored, the token unwrap is a precondition
violation that panics. -/
theorem get_currently_playing_spec (sp : Spotify) :
    (∀ t, sp.token_field = some t →
      sp.get_currently_playing =
        CurrentlyPlayingCall.requests
          "https://api.spotify.com/v1/me/player/currently-playing"
          [("Authorization", "Bearer " ++ t)]) ∧
    (sp.token_field = none →
      sp.get_currently_playing = CurrentlyPlayingCall.panicked) := by
  constructor
  · intro t ht
    simp [Spotify.get_currently_playing, ht]
  · intro ht
    simp [Spotify.get_currently_playing, ht]

/-- Witness for C9: a client holding token "tok" requests with Bearer tok;
a client with no token panics. -/
theorem get_currently_playing_spec_witness :
    (Spotify.mk "i" ResponseType.Code "r" none none false
        (some "tok")).get_currently_playing =
      CurrentlyPlayingCall.requests
        "https://api.spotify.com/v1/me/player/currently-playing"
        [("Authorization", "Bearer tok")] ∧
    (Spotify.mk "i" ResponseType.Code "r" none none false
        none).get_currently_playing = CurrentlyPlayingCall.panicked :=
  ⟨by rw [(get_currently_playing_spec
       (Spotify.mk "i" ResponseType.Code "r" none none false (some "tok"))).1
       "tok" rfl]
      decide,
   (get_currently_playing_spec
     (Spotify.mk "i" ResponseType.Code "r" none none false none)).2 rfl⟩

/-- Claim C10: whenever token() returns ok s, the in-memory token field of
the resulting client equals some s, on the disk fast path and on the
exchange path alike, so a successful token() establishes the
get_currently_playing precondition. -/
theorem token_ok_sets_token_field (ci cs code s : String) (sp : Spotify)
    (fs : FS) (net : NetOracle)
    (h : (Spotify.token_fn ci cs code sp fs net).1 = Except.ok s) :
    (Spotify.token_fn ci cs code sp fs net).2.1.token_field = some s := by
  have hx : ∀ sp1 fs1, (tokenExchange ci cs code sp1 fs1 net).1 = Except.ok s →
      (tokenExchange ci cs code sp1 fs1 net).2.1.token_field = some s := by
    intro sp1 fs1
    simp only [tokenExchange]
    cases hn : net (tokenRequest ci cs code sp1.redirect_uri) with
    | error e => intro hc; exact absurd hc (by simp)
    | ok r =>
      cases r with
      | error e => intro hc; exact absurd hc (by simp)
      | ok data => intro hc; simp_all
  revert h
  rcases fs with ⟨tf⟩
  cases tf with
  | none =>
    simp only [Spotify.token_fn, Spotify.token_from_disk]
    exact hx sp ⟨some ""⟩
  | some c =>
    simp only [Spotify.token_fn, Spotify.token_from_disk]
    by_cases hlen : c.length > 0
    · rw [if_pos hlen]
      intro h
      simp_all
    · rw [if_neg hlen]
      exact hx { sp with token_field := some c } ⟨some c⟩

/-- Witness for C10: the fast path at a concrete state. -/
theorem token_ok_sets_token_field_witness :
    (Spotify.token_fn "i" "s" "c"
        (Spotify.mk "i" ResponseType.Code "r" none none false none)
        ⟨some "tok"⟩ (fun _ => Except.error "offline")).1 = Except.ok "tok" ∧
    (Spotify.token_fn "i" "s" "c"
        (Spotify.mk "i" ResponseType.Code "r" none none false none)
        ⟨some "tok"⟩ (fun _ => Except.error "offline")).2.1.token_field =
      some "tok" :=
  ⟨rfl,
   token_ok_sets_token_field "i" "s" "c" "tok"
     (Spotify.mk "i" ResponseType.Code "r" none none false none)
     ⟨some "tok"⟩ (fun _ => Except.error "offline") rfl⟩
